import Mathlib

/-!
Shallow embedding of the s3-nix-channel repository (Rust) for verification.

Source files embedded:
  * src/persistent.rs   — channel configuration model, loading, update protocol
  * src/bin/s3-nix-channel/main.rs — request handlers, auth middleware, refresh loop

External collaborators (the S3 SDK, the base64 crate, the jsonwebtoken crate)
are modelled as explicit oracle parameters: their outcomes are inputs of the
embedded functions. Store reads and writes are tracked as an explicit list of
operations so that claims about which store operations an invocation issues
can be stated and proved.
-/

namespace S3NixChannel

/-! ## String helpers mirroring the Rust `str` methods used by the sources -/

/-- Embeds Rust `str::ends_with`: true iff `suffix` is a suffix of `s`.
Implemented over the character lists: the last `suffix.data.length`
characters of `s` must equal `suffix.data`. -/
def strEndsWith (s suffix : String) : Bool :=
  s.data.drop (s.data.length - suffix.data.length) == suffix.data

/-- Embeds Rust `str::strip_suffix`: `some` of `s` minus the suffix when
`s` ends with `suffix`, else `none`. -/
def stripSuffix? (s suffix : String) : Option String :=
  if strEndsWith s suffix then
    some ⟨s.data.take (s.data.length - suffix.data.length)⟩
  else none

/-- Embeds Rust `str::strip_prefix`. -/
def stripStart? (s pre : String) : Option String :=
  if s.data.take pre.data.length == pre.data then
    some ⟨s.data.drop pre.data.length⟩
  else none

/-- Embeds Rust `str::split_once`: split at the first occurrence of `c`. -/
def splitOnce? (s : String) (c : Char) : Option (String × String) :=
  match s.data.findIdx? (fun x => x == c) with
  | none => none
  | some i => some (⟨s.data.take i⟩, ⟨s.data.drop (i + 1)⟩)

/-- Split a character list at every occurrence of `sep` (structural helper
for path-component splitting). -/
def splitChar (sep : Char) : List Char → List (List Char)
  | [] => [[]]
  | x :: xs =>
      match splitChar sep xs with
      | [] => if x == sep then [[], []] else [[x]]
      | y :: ys => if x == sep then [] :: y :: ys else (x :: y) :: ys

/-- Embeds Rust `Path::file_name` for UTF-8 paths: the final path component,
with separators and `.` components ignored, `none` when the path is empty,
a root, or terminates in `..`. -/
def pathFileName (p : String) : Option String :=
  match (((splitChar '/' p.data).map (fun c => String.mk c)).filter
      (fun c => !(c == "") && !(c == "."))).getLast? with
  | none => none
  | some c => if c == ".." then none else some c

instance {ε α : Type} [DecidableEq ε] [DecidableEq α] : DecidableEq (Except ε α) := fun a b =>
  match a, b with
  | .ok a, .ok b =>
      if h : a = b then .isTrue (by rw [h])
      else .isFalse (fun hc => h (by cases hc; rfl))
  | .error a, .error b =>
      if h : a = b then .isTrue (by rw [h])
      else .isFalse (fun hc => h (by cases hc; rfl))
  | .ok _, .error _ => .isFalse (fun hc => by cases hc)
  | .error _, .ok _ => .isFalse (fun hc => by cases hc)

/-! ## Data model (src/persistent.rs) -/

/-- The persistent configuration of a single channel (`ChannelConfig` in
persistent.rs): the `latest` artifact identifier and the list of previous
identifiers. -/
structure ChannelConfig where
  latest : String
  previous : List String
deriving DecidableEq, Repr

/-- Association-list embedding of the `BTreeMap<String, ChannelConfig>`
inside `ChannelsConfig`: `mapInsert` replaces the value of an existing key
and otherwise appends, giving the same map semantics as `BTreeMap::insert`. -/
def mapInsert : List (String × ChannelConfig) → String → ChannelConfig →
    List (String × ChannelConfig)
  | [], k, v => [(k, v)]
  | p :: ps, k, v => if p.fst == k then (k, v) :: ps else p :: mapInsert ps k v

/-- Lookup in the association-list map, as `BTreeMap::get`. -/
def mapFind? : List (String × ChannelConfig) → String → Option ChannelConfig
  | [], _ => none
  | p :: ps, k => if p.fst == k then some p.snd else mapFind? ps k

/-- The list of channels we know about (`ChannelsConfig` in persistent.rs). -/
structure ChannelsConfig where
  channels : List (String × ChannelConfig)
deriving DecidableEq, Repr

/-- `ChannelsConfig::channel`: return a copy of the descriptor, if present. -/
def ChannelsConfig.channel (c : ChannelsConfig) (channel_name : String) :
    Option ChannelConfig :=
  mapFind? c.channels channel_name

/-! ## The store and tracked store operations -/

/-- A store operation issued by the embedded code, in issue order. -/
inductive StoreOp where
  /-- Read of `channels.json` (the channels index). -/
  | readIndex : StoreOp
  /-- Read of the per-channel descriptor `<name>.json`. -/
  | readDesc (name : String) : StoreOp
  /-- Upload of an artifact file under `key` (`Client::write_file`). -/
  | writeFile (key : String) : StoreOp
  /-- Write of a serialized channel descriptor under `key`
  (`Client::write_data` with the serialized `cfg`). -/
  | writeData (key : String) (cfg : ChannelConfig) : StoreOp
deriving DecidableEq, Repr

/-- The observable state of the S3 bucket, at the granularity the embedded
code reads it: the parse result of `channels.json`, and per channel name the
combined read-and-parse result of `<name>.json`. A read failure and a parse
failure are both `Except.error` (both are handled identically by the code). -/
structure Store where
  index : Except String (List String)
  descs : String → Except String ChannelConfig

/-- Embeds `Client::load_channels_config` (persistent.rs): parse
`channels.json` (any failure there is fatal), then for each listed channel
read and parse `<name>.json`; an individual failure skips that channel.
Also returns the list of store reads issued. -/
def load_channels_config (s : Store) : Except String ChannelsConfig × List StoreOp :=
  match s.index with
  | .error e => (.error e, [.readIndex])
  | .ok names =>
      (.ok { channels := names.foldl (fun acc channel_name =>
                match s.descs channel_name with
                | .ok channel_config => mapInsert acc channel_name channel_config
                | .error _ => acc) [] },
       .readIndex :: names.map StoreOp.readDesc)

/-! ## Update protocol (`Client::update_channel`, persistent.rs) -/

/-- The distinct failure modes of `update_channel`. In the Rust source these
are `anyhow` errors with distinct messages; each constructor corresponds to
one distinct error construction site. -/
inductive UpdateError where
  /-- The file name does not end in `.tar.xz` (line 200). -/
  | invalidSuffix (display : String) : UpdateError
  /-- `load_channels_config` failed (propagated by `?` at line 206). -/
  | loadError (msg : String) : UpdateError
  /-- The channel does not exist (line 209). -/
  | noSuchChannel (name : String) : UpdateError
  /-- The path has no final file-name component (line 213). -/
  | noFileName (display : String) : UpdateError
  /-- The artifact upload (`write_file`, line 224) failed. -/
  | uploadFailed (display : String) : UpdateError
  /-- The descriptor write (`write_data`, line 234) failed after the artifact
  upload succeeded; carries the context message of line 238. -/
  | leakedTarball (msg : String) : UpdateError
  /-- Mirrors the `unwrap` at line 221; proved unreachable under the suffix
  guard. -/
  | panicUnwrap : UpdateError
deriving DecidableEq, Repr

/-- The environment of one `update_channel` invocation: the store state it
loads from, and the outcomes of the two external S3 writes (the artifact
upload and the descriptor write), which are oracle inputs. -/
structure UpdateEnv where
  store : Store
  uploadOk : Bool
  descWriteOk : Bool

/-- The context message attached when the descriptor write fails after the
artifact upload succeeded (persistent.rs line 238). -/
def leakedMessage : String :=
  "Failed to update channel. This leaked the tarball! Remove it manually, if this is an issue."

/-- Embeds `Client::update_channel` (persistent.rs): validate the `.tar.xz`
suffix, load the configuration fresh from the store, look up the channel,
derive the object key from the file name, upload the artifact, then write
the descriptor with the old `latest` appended to `previous` and `latest` set
to the new basename. Returns the result and the store operations issued. -/
def update_channel (env : UpdateEnv) (channel_name : String) (file : String) :
    Except UpdateError Unit × List StoreOp :=
  if strEndsWith file ".tar.xz" then
    match load_channels_config env.store with
    | (.error e, ops) => (.error (.loadError e), ops)
    | (.ok channels_config, ops) =>
        match channels_config.channel channel_name with
        | none => (.error (.noSuchChannel channel_name), ops)
        | some channel =>
            match pathFileName file with
            | none => (.error (.noFileName file), ops)
            | some object_key =>
                match stripSuffix? object_key ".tar.xz" with
                | none => (.error .panicUnwrap, ops)
                | some basename =>
                    if env.uploadOk then
                      let newChannel : ChannelConfig :=
                        { latest := basename,
                          previous := channel.previous ++ [channel.latest] }
                      if env.descWriteOk then
                        (.ok (),
                         ops ++ [.writeFile object_key,
                                 .writeData (channel_name ++ ".json") newChannel])
                      else
                        (.error (.leakedTarball leakedMessage),
                         ops ++ [.writeFile object_key,
                                 .writeData (channel_name ++ ".json") newChannel])
                    else
                      (.error (.uploadFailed file), ops ++ [.writeFile object_key])
  else
    (.error (.invalidSuffix file), [])

/-- Effect of a successful store operation on the observable store state: a
descriptor write to `<name>.json` makes later reads of that channel parse
back the written descriptor (serde round-trip); artifact uploads and reads
leave the observable state unchanged. -/
def applyOp (s : Store) : StoreOp → Store
  | .writeData key cfg =>
      match stripSuffix? key ".json" with
      | some name => { s with descs := fun n => if n = name then .ok cfg else s.descs n }
      | none => s
  | _ => s

/-- Apply a list of store operations in order. -/
def applyOps (s : Store) (ops : List StoreOp) : Store :=
  ops.foldl applyOp s

/-! ## Request errors -/

/-- Modelled from the spec: the typed request errors of the crate error
module (src/error.rs is not among the provided sources). The variants follow
the construction sites visible in main.rs and persistent.rs and the error
taxonomy of the spec: invalid artifact file name, unknown channel, presign
failures, invalid auth token (reason logged only), and an unknown internal
error. -/
inductive RequestError where
  | invalidFile (file_name : String) : RequestError
  | noSuchChannel (channel_name : String) : RequestError
  | presignConfigFailure : RequestError
  | presignFailure (object_key : String) : RequestError
  | invalidToken (reason : String) : RequestError
  | unknown : RequestError
deriving DecidableEq, Repr

/-! ## Request resolver (main.rs) -/

/-- Validity of one character of an HTTP header value, as checked by
`HeaderValue::from_str` of the http crate: visible ASCII or tab; code points
at or above 128 encode to UTF-8 bytes at or above 128, which the byte-level
check accepts. -/
def headerValueCharOk (c : Char) : Bool :=
  (32 ≤ c.val && c.val ≠ 127) || c.val == 9 || 128 ≤ c.val

/-- Validity of an HTTP header value string (`HeaderValue::from_str`). -/
def isValidHeaderValue (s : String) : Bool :=
  s.data.all headerValueCharOk

/-- The server configuration (`Config` in main.rs) together with the presign
oracle: `sign` gives the outcome of `Client::sign_request` per object key
(the presigned URL, or a request error). The channels field holds the
currently loaded snapshot of the `ArcSwap`. -/
structure ServerConfig where
  base_url : String
  channels : ChannelsConfig
  sign : String → Except RequestError String

/-- `Config::latest_object_key` (main.rs): the `latest` identifier of the
named channel in the current snapshot, if any. -/
def latest_object_key (config : ServerConfig) (channel_name : String) : Option String :=
  (config.channels.channel channel_name).map (fun c => c.latest)

/-- A successful handler outcome: response headers plus a temporary
(HTTP 307) redirect target. -/
structure TempRedirect where
  headers : List (String × String)
  location : String
deriving DecidableEq, Repr

/-- Embeds `handle_channel` (main.rs): strip the `.tar.xz` suffix to get the
channel name, look up its latest object, build the `Link` header of the
Lockable HTTP Tarball Protocol, presign the object key, and answer with a
temporary redirect. -/
def handle_channel (config : ServerConfig) (path : String) :
    Except RequestError TempRedirect :=
  match stripSuffix? path ".tar.xz" with
  | none => .error (.invalidFile path)
  | some channel_name =>
      match latest_object_key config channel_name with
      | none => .error (.noSuchChannel channel_name)
      | some latest_object =>
          let link :=
            "<" ++ config.base_url ++ "/permanent/" ++ latest_object ++
              ".tar.xz>; rel=\"immutable\""
          if isValidHeaderValue link then
            match config.sign (latest_object ++ ".tar.xz") with
            | .error e => .error e
            | .ok url => .ok { headers := [("Link", link)], location := url }
          else .error .unknown

/-- Embeds `handle_persistent` (main.rs): require the `.tar.xz` suffix, then
presign the requested path directly and answer with a temporary redirect. -/
def handle_persistent (config : ServerConfig) (path : String) :
    Except RequestError TempRedirect :=
  if strEndsWith path ".tar.xz" then
    match config.sign path with
    | .error e => .error e
    | .ok url => .ok { headers := [], location := url }
  else .error (.invalidFile path)

/-! ## Configuration refresh loop (`poll_config_file`, main.rs) -/

/-- One tick of the refresh loop body (main.rs lines 226 to 235): load the
configuration from the store; on success the slot is replaced with the new
snapshot, on failure the slot keeps its previous contents. -/
def poll_tick (s : Store) (slot : ChannelsConfig) : ChannelsConfig :=
  match (load_channels_config s).fst with
  | .ok new_channels => new_channels
  | .error _ => slot

/-- The refresh loop over a finite trace of per-tick store states: each tick
runs `poll_tick` and the loop continues with the next tick. -/
def poll_config_file (stores : List Store) (slot : ChannelsConfig) : ChannelsConfig :=
  stores.foldl (fun sl st => poll_tick st sl) slot

/-! ## Auth gate (main.rs) -/

/-- The auth environment: the outcomes of the external crates used by the
middleware. `base64Decode` is `BASE64_STANDARD.decode` composed with
`String::from_utf8` (both fallible); `jwtDecode` is `jsonwebtoken::decode`
with the configured decoding key and validation, its error rendered to a
reason string. -/
structure AuthEnv where
  base64Decode : String → Option String
  jwtDecode : String → Except String Unit

/-- An inbound request at the granularity the middleware inspects it. -/
structure HttpRequest where
  headers : List (String × String)

/-- `HeaderMap::get`: the value of the first header with the given name. -/
def headerGet (headers : List (String × String)) (name : String) : Option String :=
  (headers.find? (fun p => p.fst == name)).map (fun p => p.snd)

/-- Embeds `extract_auth_password` (main.rs): take the Authorization header,
strip the `Basic ` framing, base64-decode the credentials, and return the
password field after the first colon. -/
def extract_auth_password (env : AuthEnv) (headers : List (String × String)) :
    Option String :=
  match headerGet headers "Authorization" with
  | none => none
  | some header_value =>
      match stripStart? header_value "Basic " with
      | none => none
      | some credentials =>
          match env.base64Decode credentials with
          | none => none
          | some credentials =>
              (splitOnce? credentials ':').map (fun p => p.snd)

/-- The verification performed inside `auth_middleware` (main.rs lines 156
to 166): extract the bearer credential and decode the JWT; every failure is
an `invalidToken` error carrying the reason. -/
def authVerify (env : AuthEnv) (req : HttpRequest) : Except RequestError Unit :=
  match extract_auth_password env req.headers with
  | none => .error (.invalidToken "Missing Authorization header")
  | some jwt_str =>
      match env.jwtDecode jwt_str with
      | .ok _ => .ok ()
      | .error e => .error (.invalidToken e)

/-- The outcome of the middleware around an inner service producing `α`. -/
inductive AuthOutcome (α : Type) where
  /-- The request was passed through to the inner service untouched. -/
  | passed (resp : α) : AuthOutcome α
  /-- The uniform `StatusCode::UNAUTHORIZED` response; it carries no
  information about the failure reason. -/
  | unauthorized : AuthOutcome α
deriving DecidableEq, Repr

/-- Embeds `auth_middleware` (main.rs): on successful verification run the
inner service on the unmodified request; on any verification failure answer
`unauthorized` (the reason is only logged, never returned). -/
def auth_middleware {α : Type} (env : AuthEnv) (next : HttpRequest → α)
    (req : HttpRequest) : AuthOutcome α :=
  match authVerify env req with
  | .ok _ => .passed (next req)
  | .error _ => .unauthorized

/-- Embeds the layering decision in `main` (main.rs lines 286 to 290): the
auth middleware is installed only when a JWT public key is configured;
without one every request goes straight to the router. -/
def serve {α : Type} (jwt_key : Option AuthEnv) (next : HttpRequest → α)
    (req : HttpRequest) : AuthOutcome α :=
  match jwt_key with
  | none => .passed (next req)
  | some env => auth_middleware env next req

/-! ## Helper lemmas -/

/-- A string always ends with the suffix obtained by appending it. -/
theorem strEndsWith_append (a b : String) : strEndsWith (a ++ b) b = true := by
  unfold strEndsWith
  rw [String.data_append, List.length_append, Nat.add_sub_cancel, List.drop_left]
  exact beq_self_eq_true b.data

/-- Stripping an appended suffix gives back the original string. -/
theorem stripSuffix?_append (a b : String) : stripSuffix? (a ++ b) b = some a := by
  unfold stripSuffix?
  rw [strEndsWith_append, if_pos rfl]
  refine congrArg some (String.ext ?_)
  show ((a ++ b).data.take ((a ++ b).data.length - b.data.length)) = a.data
  rw [String.data_append, List.length_append, Nat.add_sub_cancel, List.take_left]

/-- Lookup after insert in the association-list map. -/
theorem mapFind?_insert (m : List (String × ChannelConfig)) (k : String)
    (v : ChannelConfig) (n : String) :
    mapFind? (mapInsert m k v) n = if n = k then some v else mapFind? m n := by
  induction m with
  | nil =>
      by_cases h : n = k
      · subst h; simp [mapInsert, mapFind?]
      · simp [mapInsert, mapFind?, beq_iff_eq, h, Ne.symm h]
  | cons p ps ih =>
      by_cases hp : p.fst = k
      · by_cases h : n = k
        · subst h; simp [mapInsert, mapFind?, hp, beq_iff_eq]
        · simp [mapInsert, mapFind?, hp, beq_iff_eq, h, Ne.symm h]
      · by_cases hn : p.fst = n
        · have hnk : ¬n = k := fun hc => hp (hn.trans hc)
          simp [mapInsert, mapFind?, beq_iff_eq, hp, hn, hnk]
        · simp [mapInsert, mapFind?, beq_iff_eq, hp, hn, ih]

/-- Characterization of the descriptor-collecting fold inside
`load_channels_config`, for any accumulator. -/
theorem load_foldl_find (s : Store) (names : List String)
    (acc : List (String × ChannelConfig)) (n : String) :
    mapFind? (names.foldl (fun acc channel_name =>
        match s.descs channel_name with
        | .ok channel_config => mapInsert acc channel_name channel_config
        | .error _ => acc) acc) n =
      if n ∈ names ∧ (s.descs n).isOk = true then (s.descs n).toOption
      else mapFind? acc n := by
  induction names generalizing acc with
  | nil => simp
  | cons name names ih =>
      rw [List.foldl_cons, ih]
      by_cases hn : n = name
      · subst hn
        cases hd : s.descs n with
        | ok c =>
            by_cases hmem : n ∈ names
            · simp [hmem, hd, Except.isOk, Except.toBool, Except.toOption]
            · simp [hmem, hd, mapFind?_insert, Except.isOk, Except.toBool, Except.toOption]
        | error e => simp [hd, Except.isOk, Except.toBool]
      · cases hd : s.descs name with
        | ok c => simp [hd, mapFind?_insert, hn, List.mem_cons]
        | error e => simp [hd, hn, List.mem_cons]

/-- No read issued by `load_channels_config` is a descriptor write. -/
theorem load_ops_no_writeData (s : Store) (k : String) (c : ChannelConfig) :
    StoreOp.writeData k c ∉ (load_channels_config s).snd := by
  unfold load_channels_config
  cases s.index with
  | error e => simp
  | ok names => simp [List.mem_map]

/-- Store operations other than descriptor writes do not change the
observable store state. -/
theorem applyOps_no_writeData (s : Store) (ops : List StoreOp)
    (h : ∀ k c, StoreOp.writeData k c ∉ ops) : applyOps s ops = s := by
  induction ops generalizing s with
  | nil => rfl
  | cons op ops ih =>
      have hop : applyOp s op = s := by
        cases op with
        | writeData k c => exact absurd (List.mem_cons_self _ _) (h k c)
        | readIndex => rfl
        | readDesc _ => rfl
        | writeFile _ => rfl
      show applyOps (applyOp s op) ops = s
      rw [hop]
      exact ih s (fun k c hm => h k c (List.mem_cons_of_mem _ hm))

/-- Characterization of an `update_channel` run that reaches the artifact
upload and in which the upload succeeds: the operations issued are the load
reads, the artifact upload, and the descriptor write archiving the old
`latest`; the result is success or the leaked-tarball error according to the
outcome of the descriptor write. -/
theorem update_channel_run (env : UpdateEnv) (channel_name file : String)
    (cfg : ChannelsConfig) (channel : ChannelConfig) (object_key basename : String)
    (hsuf : strEndsWith file ".tar.xz" = true)
    (hload : (load_channels_config env.store).fst = .ok cfg)
    (hch : cfg.channel channel_name = some channel)
    (hfn : pathFileName file = some object_key)
    (hss : stripSuffix? object_key ".tar.xz" = some basename)
    (hup : env.uploadOk = true) :
    update_channel env channel_name file =
      ((if env.descWriteOk then .ok ()
        else .error (.leakedTarball leakedMessage)),
       (load_channels_config env.store).snd ++
         [.writeFile object_key,
          .writeData (channel_name ++ ".json")
            { latest := basename, previous := channel.previous ++ [channel.latest] }]) := by
  rcases hl : load_channels_config env.store with ⟨res, ops⟩
  rw [hl] at hload
  simp only at hload
  subst hload
  cases hdw : env.descWriteOk <;>
    simp [update_channel, hsuf, hl, hch, hfn, hss, hup, hdw]

/-- A descriptor write is issued only by a run that succeeded or that failed
at the final descriptor write (the leaked-tarball condition). -/
theorem update_channel_writeData (env : UpdateEnv) (channel_name file k : String)
    (c : ChannelConfig)
    (hmem : StoreOp.writeData k c ∈ (update_channel env channel_name file).snd) :
    (update_channel env channel_name file).fst = .ok () ∨
    (update_channel env channel_name file).fst =
      .error (.leakedTarball leakedMessage) := by
  by_cases hsuf : strEndsWith file ".tar.xz"
  case neg => simp [update_channel, hsuf] at hmem
  case pos =>
    rcases hl : load_channels_config env.store with ⟨res, ops⟩
    have hops : StoreOp.writeData k c ∉ ops := by
      have hno := load_ops_no_writeData env.store k c
      rw [hl] at hno
      exact hno
    cases res with
    | error e =>
        simp [update_channel, hsuf, hl] at hmem
        exact absurd hmem hops
    | ok cfg =>
        cases hch : cfg.channel channel_name with
        | none =>
            simp [update_channel, hsuf, hl, hch] at hmem
            exact absurd hmem hops
        | some channel =>
            cases hfn : pathFileName file with
            | none =>
                simp [update_channel, hsuf, hl, hch, hfn] at hmem
                exact absurd hmem hops
            | some object_key =>
                cases hss : stripSuffix? object_key ".tar.xz" with
                | none =>
                    simp [update_channel, hsuf, hl, hch, hfn, hss] at hmem
                    exact absurd hmem hops
                | some basename =>
                    by_cases hup : env.uploadOk
                    · by_cases hdw : env.descWriteOk
                      · left
                        simp [update_channel, hsuf, hl, hch, hfn, hss, hup, hdw]
                      · right
                        simp [update_channel, hsuf, hl, hch, hfn, hss, hup, hdw]
                    · exfalso
                      simp [update_channel, hsuf, hl, hch, hfn, hss, hup] at hmem
                      exact hops hmem

/-- The store operations issued by `update_channel` depend on the artifact
path only through its final component: two accepted paths with the same file
name issue the same operations. -/
theorem update_channel_snd_eq (env : UpdateEnv) (channel_name f1 f2 : String)
    (h1 : strEndsWith f1 ".tar.xz" = true) (h2 : strEndsWith f2 ".tar.xz" = true)
    (hfn : pathFileName f1 = pathFileName f2) :
    (update_channel env channel_name f1).snd =
      (update_channel env channel_name f2).snd := by
  rcases hl : load_channels_config env.store with ⟨res, ops⟩
  cases res with
  | error e => simp [update_channel, h1, h2, hl]
  | ok cfg =>
      cases hch : cfg.channel channel_name with
      | none => simp [update_channel, h1, h2, hl, hch]
      | some channel =>
          cases hf : pathFileName f1 with
          | none =>
              have hf2 : pathFileName f2 = none := hfn.symm.trans hf
              simp [update_channel, h1, h2, hl, hch, hf, hf2]
          | some object_key =>
              have hf2 : pathFileName f2 = some object_key := hfn.symm.trans hf
              cases hss : stripSuffix? object_key ".tar.xz" with
              | none => simp [update_channel, h1, h2, hl, hch, hf, hf2, hss]
              | some basename =>
                  by_cases hup : env.uploadOk <;> by_cases hdw : env.descWriteOk <;>
                    simp [update_channel, h1, h2, hl, hch, hf, hf2, hss, hup, hdw]

/-! ## Shared concrete fixtures -/

/-- A store with one channel `foo` at `v1`. -/
def exStore : Store :=
  { index := .ok ["foo"],
    descs := fun n =>
      if n = "foo" then .ok { latest := "v1", previous := [] } else .error "missing" }

/-- An update environment over `exStore` in which both external writes
succeed. -/
def exEnv : UpdateEnv := { store := exStore, uploadOk := true, descWriteOk := true }

/-- A server configuration whose snapshot has one channel `foo` at `v1` and
whose presign oracle always succeeds. -/
def exServer : ServerConfig :=
  { base_url := "https://example.org",
    channels := { channels := [("foo", { latest := "v1", previous := [] })] },
    sign := fun key => .ok ("presigned:" ++ key) }

/-! ## Claim theorems -/

/-- C1: for every channel name present in the loaded configuration snapshot,
resolving the request path `name ++ ".tar.xz"` on the channel endpoint
succeeds with a temporary redirect whose presigned target object key is the
channel's `latest` identifier with `.tar.xz` appended, together with a
`Link` header of exactly the immutable permanent form (stated under the
assumptions that the external presign collaborator succeeds on that key and
that the constructed header value is a well-formed HTTP header value). -/
theorem C1_channel_redirect (config : ServerConfig) (name : String)
    (c : ChannelConfig) (url : String)
    (hch : config.channels.channel name = some c)
    (hsign : config.sign (c.latest ++ ".tar.xz") = .ok url)
    (hheader : isValidHeaderValue ("<" ++ config.base_url ++ "/permanent/" ++
      c.latest ++ ".tar.xz>; rel=\"immutable\"") = true) :
    handle_channel config (name ++ ".tar.xz") =
      .ok { headers := [("Link", "<" ++ config.base_url ++ "/permanent/" ++
              c.latest ++ ".tar.xz>; rel=\"immutable\"")],
            location := url } := by
  unfold handle_channel
  rw [stripSuffix?_append]
  simp [latest_object_key, hch, hheader, hsign]

/-- C1 witness: the property at the concrete one-channel configuration. -/
theorem C1_witness :
    handle_channel exServer ("foo" ++ ".tar.xz") =
      .ok { headers :=
              [("Link", "<https://example.org/permanent/v1.tar.xz>; rel=\"immutable\"")],
            location := "presigned:v1.tar.xz" } :=
  C1_channel_redirect exServer "foo" { latest := "v1", previous := [] }
    "presigned:v1.tar.xz" (by decide) rfl (by decide)

/-- C2: every successful `update_channel` run on a channel with descriptor
`latest = L, previous = P` and a new artifact whose file name minus the
suffix is `N` writes back the descriptor with `latest = N` and
`previous = P ++ [L]`; concretely, starting from `latest v1, previous []`,
updating to `v2` writes `latest v2, previous [v1]`, and a further update to
`v3` on the resulting store writes `latest v3, previous [v1, v2]`. -/
theorem C2_update_descriptor :
    (∀ (env : UpdateEnv) (channel_name file : String) (cfg : ChannelsConfig)
       (L N object_key : String) (P : List String),
       strEndsWith file ".tar.xz" = true →
       (load_channels_config env.store).fst = .ok cfg →
       cfg.channel channel_name = some { latest := L, previous := P } →
       pathFileName file = some object_key →
       stripSuffix? object_key ".tar.xz" = some N →
       env.uploadOk = true → env.descWriteOk = true →
       update_channel env channel_name file =
         (.ok (), (load_channels_config env.store).snd ++
           [.writeFile object_key,
            .writeData (channel_name ++ ".json")
              { latest := N, previous := P ++ [L] }]))
  ∧ update_channel exEnv "foo" "v2.tar.xz" =
      (.ok (), [.readIndex, .readDesc "foo", .writeFile "v2.tar.xz",
        .writeData "foo.json" { latest := "v2", previous := ["v1"] }])
  ∧ update_channel
      { store := applyOps exStore (update_channel exEnv "foo" "v2.tar.xz").snd,
        uploadOk := true, descWriteOk := true } "foo" "v3.tar.xz" =
      (.ok (), [.readIndex, .readDesc "foo", .writeFile "v3.tar.xz",
        .writeData "foo.json" { latest := "v3", previous := ["v1", "v2"] }]) := by
  refine ⟨?_, by decide, by decide⟩
  intro env channel_name file cfg L N object_key P hsuf hload hch hfn hss hup hdw
  have h := update_channel_run env channel_name file cfg
    { latest := L, previous := P } object_key N hsuf hload hch hfn hss hup
  rw [h, hdw]
  simp

/-- C2 witness: the universally quantified part applied at a concrete run. -/
theorem C2_witness :
    update_channel exEnv "foo" "v2.tar.xz" =
      (.ok (), [.readIndex, .readDesc "foo", .writeFile "v2.tar.xz",
        .writeData "foo.json" { latest := "v2", previous := ["v1"] }]) := by
  have h := C2_update_descriptor.1 exEnv "foo" "v2.tar.xz"
    { channels := [("foo", { latest := "v1", previous := [] })] }
    "v1" "v2" "v2.tar.xz" []
    (by decide) (by decide) (by decide) (by decide) (by decide) rfl rfl
  exact h.trans (by decide)

/-- C3: loading the channels configuration is two-phase with partial
success: an unreadable or unparsable index fails the whole load; with a
parsed index, a listed channel whose descriptor read or parse fails is
absent from the resulting map, every listed channel with a valid descriptor
is present with that descriptor, and unlisted names are absent — and the
load itself still succeeds. -/
theorem C3_load_partial_success (s : Store) :
    (∀ e, s.index = .error e → (load_channels_config s).fst = .error e)
  ∧ (∀ names, s.index = .ok names →
      ∃ cfg, (load_channels_config s).fst = .ok cfg
        ∧ (∀ n, n ∈ names → (s.descs n).isOk = false → cfg.channel n = none)
        ∧ (∀ n c, n ∈ names → s.descs n = .ok c → cfg.channel n = some c)
        ∧ (∀ n, n ∉ names → cfg.channel n = none)) := by
  constructor
  · intro e h
    simp [load_channels_config, h]
  · intro names h
    refine ⟨⟨names.foldl (fun acc channel_name =>
        match s.descs channel_name with
        | .ok channel_config => mapInsert acc channel_name channel_config
        | .error _ => acc) []⟩, by simp [load_channels_config, h], ?_, ?_, ?_⟩
    · intro n hn hbad
      show mapFind? _ n = none
      rw [load_foldl_find]
      simp [hn, hbad, mapFind?]
    · intro n c hn hok
      show mapFind? _ n = some c
      rw [load_foldl_find]
      simp [hn, hok, Except.isOk, Except.toBool, Except.toOption]
    · intro n hn
      show mapFind? _ n = none
      rw [load_foldl_find]
      simp [hn, mapFind?]

/-- A store whose index lists two channels, one with a valid descriptor and
one whose descriptor is missing or malformed. -/
def c3Store : Store :=
  { index := .ok ["good", "bad"],
    descs := fun n =>
      if n = "good" then .ok { latest := "g1", previous := [] } else .error "broken" }

/-- C3 witness: on `c3Store` the load succeeds, skips the broken channel,
keeps the valid one, and omits unlisted names. -/
theorem C3_witness :
    ∃ cfg, (load_channels_config c3Store).fst = .ok cfg
      ∧ cfg.channel "bad" = none
      ∧ cfg.channel "good" = some { latest := "g1", previous := [] }
      ∧ cfg.channel "other" = none := by
  obtain ⟨cfg, hok, hskip, hgood, habs⟩ :=
    (C3_load_partial_success c3Store).2 ["good", "bad"] rfl
  exact ⟨cfg, hok, hskip "bad" (by decide) (by decide),
    hgood "good" { latest := "g1", previous := [] } (by decide) (by decide),
    habs "other" (by decide)⟩

/-- C4 counterexample: the claimed invariant fails when the new artifact
identifier equals the current `latest`. Updating channel `foo` (at `v1`)
with `v1.tar.xz` succeeds and writes back the descriptor with
`latest = "v1"` and `previous = ["v1"]`, in which `latest` is a member of
`previous`. -/
theorem C4_counterexample :
    (update_channel exEnv "foo" "v1.tar.xz").fst = .ok ()
  ∧ (update_channel exEnv "foo" "v1.tar.xz").snd =
      [.readIndex, .readDesc "foo", .writeFile "v1.tar.xz",
       .writeData "foo.json" { latest := "v1", previous := ["v1"] }]
  ∧ ({ latest := "v1", previous := ["v1"] } : ChannelConfig).latest ∈
      ({ latest := "v1", previous := ["v1"] } : ChannelConfig).previous :=
  ⟨by decide, by decide, by decide⟩

/-- C4 (amended): every successful update archives the old `latest` into
`previous` and installs the new identifier as `latest`; the written
descriptor satisfies the invariant that `latest` is not a member of
`previous` provided the new identifier differs from the prior `latest` and
from every element of the prior `previous` (without that proviso the
invariant can fail, as the counterexample shows). -/
theorem C4_update_invariant (env : UpdateEnv) (channel_name file : String)
    (cfg : ChannelsConfig) (L N object_key : String) (P : List String)
    (hsuf : strEndsWith file ".tar.xz" = true)
    (hload : (load_channels_config env.store).fst = .ok cfg)
    (hch : cfg.channel channel_name = some { latest := L, previous := P })
    (hfn : pathFileName file = some object_key)
    (hss : stripSuffix? object_key ".tar.xz" = some N)
    (hup : env.uploadOk = true) (hdw : env.descWriteOk = true) :
    update_channel env channel_name file =
      (.ok (), (load_channels_config env.store).snd ++
        [.writeFile object_key,
         .writeData (channel_name ++ ".json")
           { latest := N, previous := P ++ [L] }])
  ∧ (N ≠ L → N ∉ P → N ∉ P ++ [L]) := by
  constructor
  · have h := update_channel_run env channel_name file cfg
      { latest := L, previous := P } object_key N hsuf hload hch hfn hss hup
    rw [h, hdw]
    simp
  · intro hne hnp hmem
    rcases List.mem_append.mp hmem with hmem | hmem
    · exact hnp hmem
    · simp at hmem
      exact hne hmem

/-- C4 witness: the amended statement at a concrete run with a fresh
identifier. -/
theorem C4_witness :
    update_channel exEnv "foo" "v2.tar.xz" =
      (.ok (), [.readIndex, .readDesc "foo", .writeFile "v2.tar.xz",
        .writeData "foo.json" { latest := "v2", previous := ["v1"] }])
  ∧ "v2" ∉ ([] : List String) ++ ["v1"] := by
  have h := C4_update_invariant exEnv "foo" "v2.tar.xz"
    { channels := [("foo", { latest := "v1", previous := [] })] }
    "v1" "v2" "v2.tar.xz" []
    (by decide) (by decide) (by decide) (by decide) (by decide) rfl rfl
  exact ⟨h.1.trans (by decide), h.2 (by decide) (by decide)⟩

/-- C5: atomicity before the pointer write: every `update_channel`
invocation that fails with any error other than the leaked-tarball
condition — the invalid suffix, load failure, unknown channel, missing file
name, and failed upload cases — issues no descriptor write, and replaying
its store operations leaves the store (in particular the channel descriptor
under `name ++ ".json"`) untouched. -/
theorem C5_atomic_before_pointer_write (env : UpdateEnv)
    (channel_name file : String) (e : UpdateError)
    (herr : (update_channel env channel_name file).fst = .error e)
    (hnl : ∀ m, e ≠ UpdateError.leakedTarball m) :
    (∀ k c, StoreOp.writeData k c ∉ (update_channel env channel_name file).snd)
  ∧ applyOps env.store (update_channel env channel_name file).snd = env.store := by
  have hnw : ∀ k c,
      StoreOp.writeData k c ∉ (update_channel env channel_name file).snd := by
    intro k c hmem
    rcases update_channel_writeData env channel_name file k c hmem with hok | hleak
    · rw [herr] at hok
      cases hok
    · rw [herr] at hleak
      exact hnl leakedMessage (by injection hleak)
  exact ⟨hnw, applyOps_no_writeData _ _ hnw⟩

/-- An update environment whose artifact upload fails. -/
def c5Env : UpdateEnv := { store := exStore, uploadOk := false, descWriteOk := true }

/-- C5 witness: a concrete invocation with a failed upload leaves the store
untouched. -/
theorem C5_witness :
    applyOps c5Env.store (update_channel c5Env "foo" "v2.tar.xz").snd = c5Env.store :=
  (C5_atomic_before_pointer_write c5Env "foo" "v2.tar.xz"
    (.uploadFailed "v2.tar.xz") (by decide) (by intro m h; cases h)).2

/-- C6: when the artifact upload succeeds and the subsequent descriptor
write fails, `update_channel` returns the leaked-tarball error carrying its
dedicated remediation message, and this error is distinct from every other
failure mode of the operation. -/
theorem C6_leaked_artifact (env : UpdateEnv) (channel_name file : String)
    (cfg : ChannelsConfig) (channel : ChannelConfig) (object_key basename : String)
    (hsuf : strEndsWith file ".tar.xz" = true)
    (hload : (load_channels_config env.store).fst = .ok cfg)
    (hch : cfg.channel channel_name = some channel)
    (hfn : pathFileName file = some object_key)
    (hss : stripSuffix? object_key ".tar.xz" = some basename)
    (hup : env.uploadOk = true) (hdw : env.descWriteOk = false) :
    (update_channel env channel_name file).fst =
      .error (.leakedTarball leakedMessage)
  ∧ (∀ d, UpdateError.leakedTarball leakedMessage ≠ .invalidSuffix d)
  ∧ (∀ m, UpdateError.leakedTarball leakedMessage ≠ .loadError m)
  ∧ (∀ nm, UpdateError.leakedTarball leakedMessage ≠ .noSuchChannel nm)
  ∧ (∀ d, UpdateError.leakedTarball leakedMessage ≠ .noFileName d)
  ∧ (∀ d, UpdateError.leakedTarball leakedMessage ≠ .uploadFailed d)
  ∧ UpdateError.leakedTarball leakedMessage ≠ .panicUnwrap := by
  refine ⟨?_, (by intro d h; cases h), (by intro m h; cases h),
    (by intro nm h; cases h), (by intro d h; cases h), (by intro d h; cases h),
    (by intro h; cases h)⟩
  have h := update_channel_run env channel_name file cfg channel object_key
    basename hsuf hload hch hfn hss hup
  rw [h, hdw]
  simp

/-- An update environment whose descriptor write fails. -/
def c6Env : UpdateEnv := { store := exStore, uploadOk := true, descWriteOk := false }

/-- C6 witness: the leaked-tarball error at a concrete run. -/
theorem C6_witness :
    (update_channel c6Env "foo" "v2.tar.xz").fst =
      .error (.leakedTarball leakedMessage) :=
  (C6_leaked_artifact c6Env "foo" "v2.tar.xz"
    { channels := [("foo", { latest := "v1", previous := [] })] }
    { latest := "v1", previous := [] } "v2.tar.xz" "v2"
    (by decide) (by decide) (by decide) (by decide) (by decide) rfl rfl).1

/-- C7: each tick of the refresh loop replaces the configuration slot
wholesale when the load succeeds, leaves the previously published
configuration unchanged when the load fails, and in either case the loop
continues with the next tick. -/
theorem C7_refresh_tick (s : Store) (slot : ChannelsConfig) :
    (∀ c, (load_channels_config s).fst = .ok c → poll_tick s slot = c)
  ∧ (∀ e, (load_channels_config s).fst = .error e → poll_tick s slot = slot)
  ∧ (∀ stores, poll_config_file (s :: stores) slot =
      poll_config_file stores (poll_tick s slot)) := by
  refine ⟨?_, ?_, fun stores => rfl⟩
  · intro c h
    simp [poll_tick, h]
  · intro e h
    simp [poll_tick, h]

/-- A store whose index read fails, making the whole load fail. -/
def c7BadStore : Store := { index := .error "boom", descs := fun _ => .error "x" }

/-- C7 witness: a failing tick retains the previously published snapshot. -/
theorem C7_witness :
    poll_tick c7BadStore { channels := [("foo", { latest := "v1", previous := [] })] } =
      { channels := [("foo", { latest := "v1", previous := [] })] } :=
  (C7_refresh_tick c7BadStore _).2.1 "boom" rfl

/-- C8: a requested path that does not end in `.tar.xz` fails on the
channel endpoint and on the permanent endpoint with the invalid-file error
naming the path, and an `update_channel` call on such a file name fails
with the invalid-suffix error before any store operation is issued. -/
theorem C8_invalid_suffix (config : ServerConfig) (env : UpdateEnv)
    (path channel_name : String)
    (h : strEndsWith path ".tar.xz" = false) :
    handle_channel config path = .error (.invalidFile path)
  ∧ handle_persistent config path = .error (.invalidFile path)
  ∧ update_channel env channel_name path = (.error (.invalidSuffix path), []) := by
  refine ⟨?_, ?_, ?_⟩
  · simp [handle_channel, stripSuffix?, h]
  · simp [handle_persistent, h]
  · simp [update_channel, h]

/-- C8 witness: the three rejections at the concrete path `foo`. -/
theorem C8_witness :
    handle_channel exServer "foo" = .error (.invalidFile "foo")
  ∧ handle_persistent exServer "foo" = .error (.invalidFile "foo")
  ∧ update_channel exEnv "bar" "foo" = (.error (.invalidSuffix "foo"), []) :=
  C8_invalid_suffix exServer exEnv "foo" "bar" (by decide)

/-- C9: with no verification key configured the gate passes every request
through untouched; with a key configured, every request whose credential
fails verification — for any reason — receives the same `unauthorized`
response, which carries no information about the failure reason: any two
failing runs produce identical responses. -/
theorem C9_auth_gate (α : Type) :
    (∀ (next : HttpRequest → α) (req : HttpRequest),
       serve none next req = .passed (next req))
  ∧ (∀ (env : AuthEnv) (next : HttpRequest → α) (req : HttpRequest)
       (e : RequestError), authVerify env req = .error e →
       serve (some env) next req = .unauthorized)
  ∧ (∀ (env1 env2 : AuthEnv) (next1 next2 : HttpRequest → α)
       (req1 req2 : HttpRequest) (e1 e2 : RequestError),
       authVerify env1 req1 = .error e1 → authVerify env2 req2 = .error e2 →
       serve (some env1) next1 req1 = serve (some env2) next2 req2) := by
  refine ⟨fun next req => rfl, ?_, ?_⟩
  · intro env next req e h
    simp [serve, auth_middleware, h]
  · intro env1 env2 next1 next2 req1 req2 e1 e2 h1 h2
    simp [serve, auth_middleware, h1, h2]

/-- An auth environment whose JWT decoding reports a bad signature. -/
def c9EnvA : AuthEnv :=
  { base64Decode := fun _ => some "user:token",
    jwtDecode := fun _ => .error "InvalidSignature" }

/-- An auth environment whose JWT decoding reports an expired token. -/
def c9EnvB : AuthEnv :=
  { base64Decode := fun _ => some "user:token",
    jwtDecode := fun _ => .error "ExpiredSignature" }

/-- A request carrying an Authorization header. -/
def c9ReqAuth : HttpRequest := { headers := [("Authorization", "Basic dXNlcjp0b2tlbg==")] }

/-- A request with no Authorization header. -/
def c9ReqBare : HttpRequest := { headers := [] }

/-- C9 witness: no key means pass-through; a tampered token, an expired
token and a missing header all produce the identical unauthorized
response. -/
theorem C9_witness :
    serve none (fun _ => (0 : Nat)) c9ReqBare = .passed 0
  ∧ serve (some c9EnvA) (fun _ => (0 : Nat)) c9ReqAuth = .unauthorized
  ∧ serve (some c9EnvA) (fun _ => (0 : Nat)) c9ReqAuth =
      serve (some c9EnvB) (fun _ => (1 : Nat)) c9ReqAuth
  ∧ serve (some c9EnvA) (fun _ => (0 : Nat)) c9ReqAuth =
      serve (some c9EnvA) (fun _ => (0 : Nat)) c9ReqBare := by
  obtain ⟨h1, h2, h3⟩ := C9_auth_gate Nat
  exact ⟨h1 _ _,
    h2 c9EnvA _ c9ReqAuth (.invalidToken "InvalidSignature") (by decide),
    h3 c9EnvA c9EnvB _ _ c9ReqAuth c9ReqAuth (.invalidToken "InvalidSignature")
      (.invalidToken "ExpiredSignature") (by decide) (by decide),
    h3 c9EnvA c9EnvA _ _ c9ReqAuth c9ReqBare (.invalidToken "InvalidSignature")
      (.invalidToken "Missing Authorization header") (by decide) (by decide)⟩

/-- C10: the store operations of an accepted `update_channel` call depend
on the artifact path only through its final component (directory components
are discarded): two accepted paths with the same file name issue identical
operations; concretely, the path `/any/dir/v2.tar.xz` has file name
`v2.tar.xz`, uploads to object key `v2.tar.xz`, and sets `latest` to
`v2`. -/
theorem C10_filename_only :
    (∀ (env : UpdateEnv) (channel_name f1 f2 : String),
       strEndsWith f1 ".tar.xz" = true → strEndsWith f2 ".tar.xz" = true →
       pathFileName f1 = pathFileName f2 →
       (update_channel env channel_name f1).snd =
         (update_channel env channel_name f2).snd)
  ∧ pathFileName "/any/dir/v2.tar.xz" = some "v2.tar.xz"
  ∧ update_channel exEnv "foo" "/any/dir/v2.tar.xz" =
      (.ok (), [.readIndex, .readDesc "foo", .writeFile "v2.tar.xz",
        .writeData "foo.json" { latest := "v2", previous := ["v1"] }]) :=
  ⟨fun env channel_name f1 f2 h1 h2 hfn =>
    update_channel_snd_eq env channel_name f1 f2 h1 h2 hfn,
   by decide, by decide⟩

/-- C10 witness: the invariance part applied to the concrete pair of paths
with the same file name. -/
theorem C10_witness :
    (update_channel exEnv "foo" "/any/dir/v2.tar.xz").snd =
      (update_channel exEnv "foo" "v2.tar.xz").snd :=
  C10_filename_only.1 exEnv "foo" "/any/dir/v2.tar.xz" "v2.tar.xz"
    (by decide) (by decide) (by decide)

end S3NixChannel
